import Mathlib

/-!
Verification of the ToolJet authentication and authorization layer.

The TypeScript services (`UsersService` in
`server/src/services/users.service.ts` and `AuthService` in
`auth.service.ts`) are shallowly embedded: database tables become lists of
records, ORM queries become list traversals, thrown exceptions become the
`error` side of `Except`, and external collaborators (bcrypt, the JWT
signer, the organizations repository, which are not part of the sources)
are modelled from the specification where noted.
-/

namespace ToolJet

/-- Error kinds surfaced by the services. `nullDeref` models a JavaScript
runtime `TypeError` from dereferencing `null`/`undefined`, which escapes to
the generic error path rather than one of the designated HTTP exceptions. -/
inductive JsError where
  | unauthorized
  | badRequest
  | notFound
  | nullDeref
deriving Repr, DecidableEq

/-- The `users` table row. `organizationId` is transient: the spec data
model lists no such column (it is assigned per-request after auth, e.g. in
`login`), so entities loaded from the repository always carry `none`. -/
structure User where
  id : String
  email : String
  password : String
  firstName : String
  lastName : String
  defaultOrganizationId : String
  invitationToken : Option String
  forgotPasswordToken : Option String
  organizationId : Option String
deriving Repr, DecidableEq

/-- The `organizations` table row. -/
structure Organization where
  id : String
  name : String
deriving Repr, DecidableEq

/-- The `organization_users` join row linking a user to an organization. -/
structure OrganizationUser where
  id : String
  userId : String
  organizationId : String
  status : String
  invitationToken : Option String
deriving Repr, DecidableEq

/-- The `group_permissions` table row: a named group scoped to one
organization with boolean capability flags. -/
structure GroupPermission where
  id : String
  organizationId : String
  group : String
  appCreate : Bool
  appDelete : Bool
  folderCreate : Bool
deriving Repr, DecidableEq

/-- The `user_group_permissions` join row (user membership in a group). -/
structure UserGroupPermission where
  groupPermissionId : String
  userId : String
deriving Repr, DecidableEq

/-- The `app_group_permissions` row: per-app override flags for a group. -/
structure AppGroupPermission where
  groupPermissionId : String
  appId : String
  read : Bool
  update : Bool
  delete : Bool
deriving Repr, DecidableEq

/-- The `apps` table row (only the fields the services touch). -/
structure App where
  id : String
  userId : String
deriving Repr, DecidableEq

/-- The relational store backing the services. -/
structure DB where
  users : List User
  organizations : List Organization
  organizationUsers : List OrganizationUser
  groupPermissions : List GroupPermission
  userGroupPermissions : List UserGroupPermission
  appGroupPermissions : List AppGroupPermission
  apps : List App
deriving Repr, DecidableEq

/-- An entity loaded from the repository has the transient `organizationId`
property unset (it is not a database column). -/
def loadedUser (u : User) : User := { u with organizationId := none }

/-- JavaScript `a || b` on an optional string: `undefined` and the empty
string are falsy. -/
def jsOrStr (a : Option String) (b : String) : String :=
  match a with
  | none => b
  | some s => if s == "" then b else s

/-- JavaScript truthiness of an optional string (`undefined` and `""` are
falsy). -/
def jsTruthyStr (a : Option String) : Bool :=
  match a with
  | none => false
  | some s => s != ""

namespace UsersService

/-- `findOne({ where: { id } })`. -/
def findOne (db : DB) (id : String) : Option User :=
  (db.users.find? (fun u => u.id == id)).map loadedUser

/-- `findByEmail(email, organisationId?)`: a plain email lookup when no
organisation id is given (JavaScript truthiness: `undefined` or `""`),
otherwise an inner join requiring an active membership in that
organisation. -/
def findByEmail (db : DB) (email : String) (organisationId : Option String) :
    Option User :=
  if !jsTruthyStr organisationId then
    (db.users.find? (fun u => u.email == email)).map loadedUser
  else
    (db.users.find? (fun u =>
      u.email == email &&
      db.organizationUsers.any (fun ou =>
        ou.userId == u.id && some ou.organizationId == organisationId &&
        ou.status == "active"))).map loadedUser

/-- `findByPasswordResetToken(token)`. -/
def findByPasswordResetToken (db : DB) (token : String) : Option User :=
  (db.users.find? (fun u => u.forgotPasswordToken == some token)).map loadedUser

/-- `status(user)`: reads the status of the first membership row of the
user (any organization); dereferencing a missing row is a crash. -/
def status (db : DB) (user : User) : Except JsError String :=
  match db.organizationUsers.find? (fun ou => ou.userId == user.id) with
  | none => .error .nullDeref
  | some orgUser => .ok orgUser.status

/-- `userGroupPermissions(user, organizationId?)`: membership rows of the
user joined to group-permission rows of the resolved organization
(`organizationId || user.organizationId`; comparing against an undefined
id matches nothing). -/
def userGroupPermissions (db : DB) (user : User)
    (organizationId : Option String) : List UserGroupPermission :=
  let orgId := organizationId <|> user.organizationId
  db.userGroupPermissions.filter (fun ugp =>
    ugp.userId == user.id &&
    db.groupPermissions.any (fun gp =>
      gp.id == ugp.groupPermissionId && some gp.organizationId == orgId))

/-- `groupPermissions(user, organizationId?)`: the group-permission rows
whose ids occur among the user's membership rows. -/
def groupPermissions (db : DB) (user : User) (organizationId : Option String) :
    List GroupPermission :=
  let groupIds := (userGroupPermissions db user organizationId).map
    (fun p => p.groupPermissionId)
  db.groupPermissions.filter (fun gp => groupIds.contains gp.id)

/-- `groupPermissionsForOrganization(organizationId)`. The id argument is
optional because callers pass the transient `user.organizationId`. -/
def groupPermissionsForOrganization (db : DB) (organizationId : Option String) :
    List GroupPermission :=
  db.groupPermissions.filter (fun gp => some gp.organizationId == organizationId)

/-- `appGroupPermissions(user, appId?, organizationId?)`. -/
def appGroupPermissions (db : DB) (user : User) (appId : Option String)
    (organizationId : Option String) : List AppGroupPermission :=
  let groupIds := (userGroupPermissions db user organizationId).map
    (fun p => p.groupPermissionId)
  if jsTruthyStr appId then
    db.appGroupPermissions.filter (fun agp =>
      groupIds.contains agp.groupPermissionId && some agp.appId == appId)
  else
    db.appGroupPermissions.filter (fun agp =>
      groupIds.contains agp.groupPermissionId)

/-- Dynamic property access `p[action]` on a group-permission row; an
unknown key reads `undefined`, which is falsy. -/
def GroupPermission.flag (gp : GroupPermission) (action : String) : Bool :=
  if action == "appCreate" then gp.appCreate
  else if action == "appDelete" then gp.appDelete
  else if action == "folderCreate" then gp.folderCreate
  else false

/-- Dynamic property access `p[action]` on an app-group-permission row. -/
def AppGroupPermission.flag (agp : AppGroupPermission) (action : String) : Bool :=
  if action == "read" then agp.read
  else if action == "update" then agp.update
  else if action == "delete" then agp.delete
  else false

/-- `canAnyGroupPerformAction(action, permissions)` on group permissions. -/
def canAnyGroupPerformAction (action : String)
    (permissions : List GroupPermission) : Bool :=
  permissions.any (fun p => GroupPermission.flag p action)

/-- `canAnyGroupPerformAction(action, permissions)` on app-group
permissions (the source uses one dynamically-typed function). -/
def canAnyGroupPerformActionApp (action : String)
    (permissions : List AppGroupPermission) : Bool :=
  permissions.any (fun p => AppGroupPermission.flag p action)

/-- `isUserOwnerOfApp(user, appId)`: an app row with that id owned by the
user exists. -/
def isUserOwnerOfApp (db : DB) (user : User) (appId : Option String) : Bool :=
  db.apps.any (fun a => some a.id == appId && a.userId == user.id)

/-- `hasGroup(user, group, organizationId?)`. -/
def hasGroup (db : DB) (user : User) (group : String)
    (organizationId : Option String) : Bool :=
  let orgId := organizationId <|> user.organizationId
  db.groupPermissions.any (fun gp =>
    some gp.organizationId == orgId && gp.group == group &&
    db.userGroupPermissions.any (fun ugp =>
      ugp.groupPermissionId == gp.id && ugp.userId == user.id))

/-- `canUserPerformActionOnApp(user, action, appId?)`. -/
def canUserPerformActionOnApp (db : DB) (user : User) (action : String)
    (appId : Option String) : Bool :=
  if action == "create" then
    canAnyGroupPerformAction "appCreate" (groupPermissions db user none)
  else if action == "read" || action == "update" then
    canAnyGroupPerformActionApp action (appGroupPermissions db user appId none) ||
      isUserOwnerOfApp db user appId
  else if action == "delete" then
    canAnyGroupPerformActionApp "delete" (appGroupPermissions db user appId none) ||
      canAnyGroupPerformAction "appDelete" (groupPermissions db user none) ||
      isUserOwnerOfApp db user appId
  else false

/-- `canUserPerformActionOnFolder(user, action, folderId?)`. -/
def canUserPerformActionOnFolder (db : DB) (user : User) (action : String)
    (_folderId : Option String) : Bool :=
  if action == "create" then
    canAnyGroupPerformAction "folderCreate" (groupPermissions db user none)
  else false

/-- `userCan(user, action, entityName, resourceId?)`: the authorization
decision, a switch over the entity-kind string with a deny-by-default
fallthrough. -/
def userCan (db : DB) (user : User) (action : String) (entityName : String)
    (resourceId : Option String) : Bool :=
  if entityName == "App" then
    canUserPerformActionOnApp db user action resourceId
  else if entityName == "User" then
    hasGroup db user "admin" none
  else if entityName == "Thread" || entityName == "Comment" then
    canUserPerformActionOnApp db user "update" resourceId
  else if entityName == "Folder" then
    canUserPerformActionOnFolder db user action resourceId
  else false

/-- The users other than `user` counted by
`throwErrorIfRemovingLastActiveAdmin`: joined (via membership rows) to an
active `organization_users` row in ANY organization, and (via
`user_group_permissions`) to the `admin` group-permission row of the
modified user's organization. -/
def otherActiveAdminsCount (db : DB) (user : User) : Nat :=
  db.users.countP (fun other =>
    db.userGroupPermissions.any (fun ugp =>
      ugp.userId == other.id &&
      db.groupPermissions.any (fun gp =>
        gp.id == ugp.groupPermissionId && gp.group == "admin" &&
        some gp.organizationId == user.organizationId)) &&
    db.organizationUsers.any (fun ou =>
      ou.userId == other.id && ou.userId != user.id && ou.status == "active"))

/-- `throwErrorIfRemovingLastActiveAdmin(user, removeGroups)`: when
`removeGroups` contains `admin`, throws BadRequest if the count above is
zero. -/
def throwErrorIfRemovingLastActiveAdmin (db : DB) (user : User)
    (removeGroups : List String) : Except JsError Unit :=
  if !removeGroups.contains "admin" then .ok ()
  else if otherActiveAdminsCount db user == 0 then .error .badRequest
  else .ok ()

/-- `removeUserGroupPermissionsIfExists(manager, user, removeGroups)`:
no-op when `removeGroups` is undefined; otherwise runs the last-admin
check, rejects the protected `all_users` group, and deletes the user's
membership rows for the named groups of the user's organization. -/
def removeUserGroupPermissionsIfExists (db : DB) (user : User)
    (removeGroups : Option (List String)) : Except JsError DB :=
  match removeGroups with
  | none => .ok db
  | some gs =>
    match throwErrorIfRemovingLastActiveAdmin db user gs with
    | .error e => .error e
    | .ok _ =>
      if gs.contains "all_users" then .error .badRequest
      else
        let groupIdsToMaybeRemove :=
          (db.groupPermissions.filter (fun gp =>
            gs.contains gp.group &&
            some gp.organizationId == user.organizationId)).map (fun p => p.id)
        .ok { db with
          userGroupPermissions := db.userGroupPermissions.filter (fun ugp =>
            !(groupIdsToMaybeRemove.contains ugp.groupPermissionId &&
              ugp.userId == user.id)) }

/-- `addUserGroupPermissions(manager, user, addGroups)`: adds a membership
row per named group of the user's organization, rejecting unknown group
names. -/
def addUserGroupPermissions (db : DB) (user : User)
    (addGroups : Option (List String)) : Except JsError DB :=
  match addGroups with
  | none => .ok db
  | some gs =>
    let orgGroupPermissions :=
      groupPermissionsForOrganization db user.organizationId
    gs.foldlM (fun acc group =>
      match orgGroupPermissions.find? (fun permission => permission.group == group) with
      | some orgGroupPermission =>
        .ok { acc with
          userGroupPermissions := acc.userGroupPermissions ++
            [⟨orgGroupPermission.id, user.id⟩] }
      | none => .error .badRequest) db

/-- bcrypt, modelled from the spec: a one-way hash (`hashSync`) and the
matching compare; the model makes the hash an explicit injective tag. -/
def bcryptHash (plain : String) : String := "bcrypt$" ++ plain

/-- bcrypt `compare(plain, hash)` under the model above. -/
def bcryptCompare (plain hash : String) : Bool := hash == bcryptHash plain

/-- The updateable parameters accepted by `update`. A `none` field is a
JavaScript `undefined` (key dropped by `cleanObject`); the doubled option
on `forgotPasswordToken` distinguishes absent (`none`) from an explicit
`null` (`some none`). -/
structure UpdateParams where
  forgotPasswordToken : Option (Option String)
  password : Option String
  firstName : Option String
  lastName : Option String
  addGroups : Option (List String)
  removeGroups : Option (List String)
deriving Repr, DecidableEq

/-- `update(userId, params)`: hashes the password when one is given
(JavaScript truthiness: an empty string produces `undefined`, so the
password column is left alone), applies the surviving columns to the
matching user rows, re-fetches the user, then removes and adds group
memberships. Returns the updated store and the re-fetched user. -/
def update (db : DB) (userId : String) (params : UpdateParams) :
    Except JsError (DB × Option User) :=
  let hashedPassword : Option String :=
    match params.password with
    | some pw => if pw == "" then none else some (bcryptHash pw)
    | none => none
  let users1 := db.users.map (fun r =>
    if r.id == userId then
      { r with
        forgotPasswordToken := params.forgotPasswordToken.getD r.forgotPasswordToken,
        password := hashedPassword.getD r.password,
        firstName := params.firstName.getD r.firstName,
        lastName := params.lastName.getD r.lastName }
    else r)
  let db1 : DB := { db with users := users1 }
  let user : Option User := (users1.find? (fun r => r.id == userId)).map loadedUser
  match params.removeGroups, user with
  | some _, none => .error .nullDeref
  | some gs, some u =>
    match removeUserGroupPermissionsIfExists db1 u (some gs) with
    | .error e => .error e
    | .ok db2 =>
      match params.addGroups, user with
      | some gsAdd, some uAdd =>
        (addUserGroupPermissions db2 uAdd (some gsAdd)).map (fun d => (d, user))
      | _, _ => .ok (db2, user)
  | none, _ =>
    match params.addGroups, user with
    | some _, none => .error .nullDeref
    | some gsAdd, some uAdd =>
      (addUserGroupPermissions db1 uAdd (some gsAdd)).map (fun d => (d, user))
    | none, _ => .ok (db1, user)

/-- Parameters of `setupAccountFromInvitationToken`. The source also
destructures a `role`, but the spec data model lists no role column on
User, so assigning it onto the entity has no persisted effect and the
model drops it. -/
structure SetupAccountParams where
  organization : Option String
  password : Option String
  token : String
  firstName : Option String
  lastName : Option String
  newSignup : Bool
deriving Repr, DecidableEq

/-- `setupAccountFromInvitationToken(params)`: resolves the user and
membership from the invitation token (on the User row for new signups,
on the OrganizationUser row otherwise), throwing BadRequest when a lookup
misses; then clears the token, activates the membership, and for a new
signup with an organization name runs the rename update. The
`user.organizationUsers` relation (entity file not in the sources) is
modelled from the spec: the membership rows linked to the user; a loaded
(possibly empty) array is truthy in JavaScript, so only a missing user
fails the first check. Passwords persist hashed (entity hook, modelled
from the spec: credential is a hashed password). -/
def setupAccountFromInvitationToken (db : DB) (params : SetupAccountParams) :
    Except JsError DB :=
  let resolved : Except JsError (User × OrganizationUser) :=
    if params.newSignup then
      match (db.users.find? (fun u => u.invitationToken == some params.token)).map
          loadedUser with
      | none => .error .badRequest
      | some user =>
        let organizationUsers := db.organizationUsers.filter (fun ou =>
          ou.userId == user.id)
        match organizationUsers.find? (fun ou =>
            ou.organizationId == user.defaultOrganizationId) with
        | none => .error .badRequest
        | some organizationUser => .ok (user, organizationUser)
    else
      match db.organizationUsers.find? (fun ou =>
          ou.invitationToken == some params.token) with
      | none => .error .badRequest
      | some organizationUser =>
        match (db.users.find? (fun u => u.id == organizationUser.userId)).map
            loadedUser with
        | none => .error .badRequest
        | some user => .ok (user, organizationUser)
  match resolved with
  | .error e => .error e
  | .ok (user, organizationUser) =>
    let db1 : DB := { db with
      users := db.users.map (fun r =>
        if r.id == user.id then
          { r with
            firstName := params.firstName.getD r.firstName,
            lastName := params.lastName.getD r.lastName,
            password := match params.password with
              | some pw => bcryptHash pw
              | none => r.password,
            invitationToken := none }
        else r) }
    let db2 : DB := { db1 with
      organizationUsers := db1.organizationUsers.map (fun r =>
        if r.id == organizationUser.id then
          { r with invitationToken := none, status := "active" }
        else r) }
    if params.newSignup && jsTruthyStr params.organization then
      -- organizationsRepository.update(user.organizationId, { name }):
      -- user.organizationId is the transient property, unset on an entity
      -- loaded from the repository, so the criterion matches no row
      .ok { db2 with
        organizations := db2.organizations.map (fun o =>
          if some o.id == user.organizationId then
            { o with name := params.organization.getD o.name }
          else o) }
    else .ok db2

/-- `create(userParams, organizationId, groups)`: inserts the user row
(password stored hashed and invitation token generated by entity hooks,
modelled from the spec) and one membership row per named group of the
organization, rejecting unknown group names with BadRequest. -/
def create (db : DB) (email : String) (firstName lastName : Option String)
    (organizationId : String) (groups : List String)
    (userId password invitationToken : String) : Except JsError (DB × User) :=
  let user : User :=
    { id := userId, email := email, password := bcryptHash password,
      firstName := firstName.getD "", lastName := lastName.getD "",
      defaultOrganizationId := organizationId,
      invitationToken := some invitationToken, forgotPasswordToken := none,
      organizationId := none }
  let db1 : DB := { db with users := db.users ++ [user] }
  (groups.foldlM (fun (acc : DB) (group : String) =>
    let found : Option GroupPermission := db.groupPermissions.find? (fun gp =>
      gp.organizationId == organizationId && gp.group == group)
    match found with
    | some orgGroupPermission =>
      (Except.ok { acc with
        userGroupPermissions := acc.userGroupPermissions ++
          [(⟨orgGroupPermission.id, userId⟩ : UserGroupPermission)] } :
        Except JsError DB)
    | none => (Except.error JsError.badRequest : Except JsError DB)) db1).map
    (fun d => (d, user))

end UsersService

/-- The claims embedded in a signed session token. -/
structure JwtClaims where
  username : String
  sub : String
  organizationId : String
deriving Repr, DecidableEq

/-- Modelled from the spec: the token signer is an external library that
issues and verifies signed session tokens; the model identifies a signed
token with its claims. -/
structure SignedToken where
  claims : JwtClaims
deriving Repr, DecidableEq

/-- `jwtService.sign(payload)`. -/
def jwtSign (claims : JwtClaims) : SignedToken := ⟨claims⟩

/-- `jwtService.verify(token)` (always succeeds on a token produced by
`jwtSign`). -/
def jwtVerify (token : SignedToken) : JwtClaims := token.claims

/-- Modelled from the spec: `organizationsService.get(id)` reads the
organization row from the credential store (the service file is not in
the sources). -/
def organizationsGet (db : DB) (id : String) : Option Organization :=
  db.organizations.find? (fun o => o.id == id)

/-- Emails handed to the mailer. -/
inductive SentEmail where
  | welcome (email : String) (firstName : String) (invitationToken : Option String)
  | passwordReset (email : String) (token : String)
deriving Repr, DecidableEq

namespace AuthService

open UsersService

/-- The snake_cased login/switch response payload (keys modelled as
structure fields; `decamelizeKeys` is a key-spelling detail). -/
structure LoginPayload where
  id : String
  authToken : SignedToken
  email : String
  firstName : String
  lastName : String
  organizationId : String
  organization : String
  admin : Bool
  groupPermissions : List GroupPermission
  appGroupPermissions : List AppGroupPermission
deriving Repr, DecidableEq

/-- Parameters of `login`. -/
structure LoginParams where
  email : String
  password : String
  organizationId : Option String
deriving Repr, DecidableEq

/-- `validateUser(email, password, organisationId?)`: email lookup then
bcrypt compare. -/
def validateUser (db : DB) (email password : String)
    (organisationId : Option String) : Option User :=
  match findByEmail db email organisationId with
  | none => none
  | some user => if bcryptCompare password user.password then some user else none

/-- `login(params)`: validates the credentials, rejects archived users,
resolves the effective organization (`organizationId ||
defaultOrganizationId`), signs the token and assembles the payload; any
credential mismatch throws Unauthorized. Reading the name of a missing
organization row is a crash. -/
def login (db : DB) (params : LoginParams) : Except JsError LoginPayload :=
  match validateUser db params.email params.password params.organizationId with
  | none => .error .unauthorized
  | some user =>
    match status db user with
    | .error e => .error e
    | .ok st =>
      if st == "archived" then .error .unauthorized
      else
        let orgId := jsOrStr params.organizationId user.defaultOrganizationId
        let user := { user with organizationId := some orgId }
        match organizationsGet db orgId with
        | none => .error .nullDeref
        | some organization =>
          .ok {
            id := user.id,
            authToken := jwtSign ⟨user.id, user.email, orgId⟩,
            email := user.email,
            firstName := user.firstName,
            lastName := user.lastName,
            organizationId := orgId,
            organization := organization.name,
            admin := hasGroup db user "admin" none,
            groupPermissions := UsersService.groupPermissions db user none,
            appGroupPermissions := UsersService.appGroupPermissions db user none none }

/-- Fresh identifiers consumed by the signup writes (uuid generation and
database-assigned ids). -/
structure SignupFresh where
  orgId : String
  userId : String
  orgUserId : String
  password : String
  invitationToken : String
  allUsersGroupId : String
  adminGroupId : String
deriving Repr, DecidableEq

/-- `signup(params)`: returns an empty result with no writes when the
`DISABLE_SIGNUPS` environment variable is exactly the string `true`;
otherwise creates the organization named `Untitled organization` (with its
`all_users` and `admin` groups — `organizationsService.create` is not in
the sources and is modelled from the spec), the user with those two
groups, the membership row (`organizationUsersService.create`, modelled
from the spec), and sends the welcome email. -/
def signup (disableSignups : Option String) (db : DB) (email : String)
    (fresh : SignupFresh) : Except JsError (DB × List SentEmail) :=
  if disableSignups == some "true" then .ok (db, [])
  else
    let db1 : DB := { db with
      organizations := db.organizations ++ [⟨fresh.orgId, "Untitled organization"⟩],
      groupPermissions := db.groupPermissions ++
        [⟨fresh.allUsersGroupId, fresh.orgId, "all_users", false, false, false⟩,
         ⟨fresh.adminGroupId, fresh.orgId, "admin", true, true, true⟩] }
    match create db1 email none none fresh.orgId ["all_users", "admin"]
        fresh.userId fresh.password fresh.invitationToken with
    | .error e => .error e
    | .ok (db2, user) =>
      let db3 : DB := { db2 with
        organizationUsers := db2.organizationUsers ++
          [⟨fresh.orgUserId, user.id, fresh.orgId, "invited", none⟩] }
      .ok (db3, [.welcome user.email user.firstName user.invitationToken])

/-- `forgotPassword(email)`: looks the user up by email and dereferences
the result unconditionally — an unknown email crashes with a null
dereference rather than a designated HTTP error — then stores a fresh
token and mails it. -/
def forgotPassword (db : DB) (email : String) (newToken : String) :
    Except JsError (DB × List SentEmail) :=
  match findByEmail db email none with
  | none => .error .nullDeref
  | some user =>
    match update db user.id ⟨some (some newToken), none, none, none, none, none⟩ with
    | .error e => .error e
    | .ok (db1, _) => .ok (db1, [.passwordReset email newToken])

/-- `resetPassword(token, password)`: NotFound when no user carries the
token; otherwise updates the password and clears the token through
`UsersService.update`. -/
def resetPassword (db : DB) (token password : String) : Except JsError DB :=
  match findByPasswordResetToken db token with
  | none => .error .notFound
  | some user =>
    match update db user.id ⟨some none, some password, none, none, none, none⟩ with
    | .error e => .error e
    | .ok (db1, _) => .ok db1

end AuthService

open UsersService AuthService

/-! ## Concrete fixtures for the claim theorems -/

/-- A user owning an app, with no group permissions at all. -/
def wUserC1 : User := ⟨"uA", "a@a.a", "h", "", "", "o1", none, none, some "o1"⟩

/-- The app owned by `wUserC1`. -/
def wAppC1 : App := ⟨"a1", "uA"⟩

/-- Store for the ownership witness: no group or app-group permission rows
exist. -/
def wDbC1 : DB := ⟨[wUserC1], [⟨"o1", "Org"⟩], [], [], [], [], [wAppC1]⟩

/-- The user whose `admin` group is being removed in the C2 scenarios. -/
def exUserC2 : User := ⟨"uA", "a@a.a", "h", "", "", "o1", none, none, some "o1"⟩

/-- A second user holding the `admin` group of organization `o1`. -/
def exUserC2b : User := ⟨"uB", "b@b.b", "h", "", "", "o1", none, none, none⟩

/-- Store where `uB` is a second ACTIVE admin of `o1`: removal succeeds. -/
def exDbC2ok : DB :=
  ⟨[exUserC2, exUserC2b], [⟨"o1", "Org"⟩],
   [⟨"ouA", "uA", "o1", "active", none⟩, ⟨"ouB", "uB", "o1", "active", none⟩],
   [⟨"g1", "o1", "admin", true, true, true⟩],
   [⟨"g1", "uA"⟩, ⟨"g1", "uB"⟩], [], []⟩

/-- Store where `uB` holds the `admin` group of `o1` but its `o1`
membership is archived; its only ACTIVE membership is in another
organization `o2`. -/
def exDbC2 : DB :=
  ⟨[exUserC2, exUserC2b], [⟨"o1", "Org"⟩],
   [⟨"ouA", "uA", "o1", "active", none⟩, ⟨"ouB", "uB", "o1", "archived", none⟩,
    ⟨"ouB2", "uB", "o2", "active", none⟩],
   [⟨"g1", "o1", "admin", true, true, true⟩],
   [⟨"g1", "uA"⟩, ⟨"g1", "uB"⟩], [], []⟩

/-- Stated from the claim's words, not from the source: the count of
active members OF THE USER'S ORGANIZATION, other than the user being
modified, who hold the `admin` group. (The source query does not restrict
the active membership to that organization; the counterexample separates
the two.) -/
def claimOtherActiveAdminsCount (db : DB) (user : User) : Nat :=
  db.users.countP (fun other =>
    other.id != user.id &&
    db.organizationUsers.any (fun ou =>
      ou.userId == other.id && some ou.organizationId == user.organizationId &&
      ou.status == "active") &&
    db.userGroupPermissions.any (fun ugp =>
      ugp.userId == other.id &&
      db.groupPermissions.any (fun gp =>
        gp.id == ugp.groupPermissionId && gp.group == "admin" &&
        some gp.organizationId == user.organizationId)))

/-- The store produced by the C2 counterexample run: only the modified
user's own admin membership row was deleted. -/
def exDbC2after : DB := { exDbC2 with userGroupPermissions := [⟨"g1", "uB"⟩] }

/-- A user with a bcrypt-hashed password and an active membership. -/
def wUser3 : User :=
  ⟨"u1", "a@b.c", bcryptHash "pw", "Ann", "Lee", "o1", none, none, none⟩

/-- Store for the login scenarios. -/
def wDb3 : DB :=
  ⟨[wUser3], [⟨"o1", "Acme"⟩], [⟨"ou1", "u1", "o1", "active", none⟩],
   [], [], [], []⟩

/-- Correct credentials. -/
def wP3 : LoginParams := ⟨"a@b.c", "pw", none⟩

/-- Wrong password. -/
def wP3bad : LoginParams := ⟨"a@b.c", "wrong", none⟩

/-- The payload `login wDb3 wP3` evaluates to. -/
def cPayloadC6 : LoginPayload :=
  ⟨"u1", ⟨⟨"u1", "a@b.c", "o1"⟩⟩, "a@b.c", "Ann", "Lee", "o1", "Acme",
   false, [], []⟩

/-- Empty store (no user carries any email). -/
def wDb10 : DB := ⟨[], [], [], [], [], [], []⟩

/-- A user carrying the reset token `tok`, with stored password hash
`oldhash`. -/
def exUser5 : User :=
  ⟨"u2", "c@d.e", "oldhash", "Bo", "Ix", "o1", none, some "tok", none⟩

/-- Store for the reset-password scenarios. -/
def exDb5 : DB := ⟨[exUser5], [], [], [], [], [], []⟩

/-- The store after `resetPassword exDb5 "tok" ""`: token cleared but the
password column untouched. -/
def exDb5after : DB :=
  ⟨[⟨"u2", "c@d.e", "oldhash", "Bo", "Ix", "o1", none, none, none⟩],
   [], [], [], [], [], []⟩

/-- A freshly invited signup user: invitation token on the User row,
membership still `invited`, organization still carrying the placeholder
name. -/
def exUser9 : User := ⟨"u9", "i@j.k", "h", "", "", "o1", some "itok", none, none⟩

/-- Store for the invitation-setup scenario. -/
def exDb9 : DB :=
  ⟨[exUser9], [⟨"o1", "Untitled organization"⟩],
   [⟨"ou9", "u9", "o1", "invited", none⟩], [], [], [], []⟩

/-- Setup parameters: a new signup supplying the organization name
`MyCo`. -/
def exP9 : SetupAccountParams :=
  ⟨some "MyCo", some "pw", "itok", some "F", some "L", true⟩

/-- The store `setupAccountFromInvitationToken exDb9 exP9` produces: the
token is cleared and the membership activated, but the organization keeps
its placeholder name. -/
def exDb9after : DB :=
  ⟨[⟨"u9", "i@j.k", bcryptHash "pw", "F", "L", "o1", none, none, none⟩],
   [⟨"o1", "Untitled organization"⟩],
   [⟨"ou9", "u9", "o1", "active", none⟩], [], [], [], []⟩

/-! ## Claim theorems, witnesses and counterexamples -/

/-- A list holding two distinct elements satisfying `p` has `countP p` at
least two. -/
theorem two_le_countP_of_distinct {α : Type} (p : α → Bool) {l : List α}
    {a b : α} (ha : a ∈ l) (hb : b ∈ l) (hab : a ≠ b) (hpa : p a = true)
    (hpb : p b = true) : 2 ≤ l.countP p := by
  rw [List.countP_eq_length_filter]
  have ha2 : a ∈ l.filter p := List.mem_filter.mpr ⟨ha, hpa⟩
  have hb2 : b ∈ l.filter p := List.mem_filter.mpr ⟨hb, hpb⟩
  match hl : l.filter p with
  | [] => rw [hl] at ha2; simp at ha2
  | [c] =>
    rw [hl] at ha2 hb2
    simp only [List.mem_singleton] at ha2 hb2
    exact absurd (ha2.trans hb2.symm) hab
  | c :: d :: t => simp

/-- C1: for every store, user and app row, if the app's owning `userId`
equals the user's id then `userCan(user, action, 'App', appId)` is true
for each action in read/update/delete, whatever the group and app-group
permission rows contain — ownership alone satisfies the check. -/
theorem UsersService.userCan_app_ownership (db : DB) (u : User) (a : App)
    (action : String) (hmem : a ∈ db.apps) (hown : a.userId = u.id)
    (haction : action = "read" ∨ action = "update" ∨ action = "delete") :
    userCan db u action "App" (some a.id) = true := by
  have howner : isUserOwnerOfApp db u (some a.id) = true := by
    simp only [isUserOwnerOfApp, List.any_eq_true]
    exact ⟨a, hmem, by simp [hown]⟩
  rcases haction with h | h | h <;> subst h <;>
    simp [userCan, canUserPerformActionOnApp, howner]

/-- C1 witness: the owner may delete the app although no group or
app-group permission row exists at all. -/
theorem UsersService.userCan_app_ownership_witness :
    userCan wDbC1 wUserC1 "delete" "App" (some "a1") = true :=
  UsersService.userCan_app_ownership wDbC1 wUserC1 wAppC1 "delete"
    (by decide) (by decide) (Or.inr (Or.inr rfl))

/-- C4: whenever `removeGroups` contains `all_users`,
`removeUserGroupPermissionsIfExists` throws BadRequest (and hence deletes
no membership row), regardless of the other group names and of the store
contents. -/
theorem UsersService.removeUserGroup_allUsers_rejected (db : DB) (u : User)
    (gs : List String) (h : gs.contains "all_users" = true) :
    removeUserGroupPermissionsIfExists db u (some gs) = .error .badRequest := by
  have hmem : "all_users" ∈ gs := by simpa using h
  unfold removeUserGroupPermissionsIfExists throwErrorIfRemovingLastActiveAdmin
  by_cases hadm : "admin" ∈ gs
  · by_cases hcnt : otherActiveAdminsCount db u = 0
    · simp [hadm, hcnt, hmem]
    · simp [hadm, hcnt, hmem]
  · simp [hadm, hmem]

/-- C4 witness: removing `["custom", "all_users"]` from a user is rejected
with BadRequest. -/
theorem UsersService.removeUserGroup_allUsers_rejected_witness :
    removeUserGroupPermissionsIfExists exDbC2ok exUserC2
      (some ["custom", "all_users"]) = .error .badRequest :=
  UsersService.removeUserGroup_allUsers_rejected exDbC2ok exUserC2
    ["custom", "all_users"] (by decide)

/-- C2 counterexample: in `exDbC2` the only other holder of the `admin`
group of `uA`'s organization is archived there (its active membership is
in a different organization), so the count named by the claim — active
members of the user's organization holding `admin` — is zero; yet the
code does NOT throw, because its query accepts an active membership in
any organization. -/
theorem removeUserGroup_lastAdmin_counterexample :
    claimOtherActiveAdminsCount exDbC2 exUserC2 = 0 ∧
    removeUserGroupPermissionsIfExists exDbC2 exUserC2 (some ["admin"]) ≠
      .error .badRequest := by
  refine ⟨by decide, ?_⟩
  have hres : removeUserGroupPermissionsIfExists exDbC2 exUserC2
      (some ["admin"]) = .ok exDbC2after := by rfl
  rw [hres]
  intro hc
  exact Except.noConfusion hc

/-- C2 (amended): when `removeGroups` contains `admin` and not
`all_users`, the call throws BadRequest exactly when no OTHER user both
holds the `admin` group of the modified user's organization and has an
ACTIVE membership row in some (not necessarily that) organization; when
such a user exists the call succeeds. -/
theorem UsersService.removeUserGroup_lastAdmin_spec (db : DB) (u : User)
    (gs : List String) (hadmin : gs.contains "admin" = true)
    (hprot : gs.contains "all_users" = false) :
    (removeUserGroupPermissionsIfExists db u (some gs) = .error .badRequest ↔
      otherActiveAdminsCount db u = 0) ∧
    (otherActiveAdminsCount db u ≠ 0 →
      ∃ db2, removeUserGroupPermissionsIfExists db u (some gs) = .ok db2) := by
  have hadm2 : "admin" ∈ gs := by simpa using hadmin
  have hprot2 : "all_users" ∉ gs := by simpa using hprot
  unfold removeUserGroupPermissionsIfExists throwErrorIfRemovingLastActiveAdmin
  by_cases hcnt : otherActiveAdminsCount db u = 0
  · simp [hadm2, hcnt]
  · simp [hadm2, hprot2, hcnt]

/-- C2 witness: with a second active admin of the same organization the
removal succeeds, and the throw condition is equivalent to the
other-active-admin count being zero. -/
theorem UsersService.removeUserGroup_lastAdmin_spec_witness :
    ((removeUserGroupPermissionsIfExists exDbC2ok exUserC2 (some ["admin"]) =
        .error .badRequest ↔ otherActiveAdminsCount exDbC2ok exUserC2 = 0) ∧
      (otherActiveAdminsCount exDbC2ok exUserC2 ≠ 0 →
        ∃ db2, removeUserGroupPermissionsIfExists exDbC2ok exUserC2
          (some ["admin"]) = .ok db2)) ∧
    otherActiveAdminsCount exDbC2ok exUserC2 = 1 :=
  ⟨UsersService.removeUserGroup_lastAdmin_spec exDbC2ok exUserC2 ["admin"]
    (by decide) (by decide), by decide⟩

/-- C3: login succeeds — with token claims naming the same user
(`username` claim) and the effective organization — when the email
resolves, the password hash matches and the user's status is not
archived (the store must also hold the effective organization row, which
the success path dereferences); an unknown email, a wrong password and an
archived status all produce the same Unauthorized error. -/
theorem AuthService.login_spec (db : DB) (p : LoginParams) :
    (∀ u s org, findByEmail db p.email p.organizationId = some u →
      bcryptCompare p.password u.password = true →
      UsersService.status db u = .ok s → s ≠ "archived" →
      organizationsGet db (jsOrStr p.organizationId u.defaultOrganizationId) =
        some org →
      ∃ payload, login db p = .ok payload ∧
        (jwtVerify payload.authToken).username = u.id ∧
        (jwtVerify payload.authToken).organizationId =
          jsOrStr p.organizationId u.defaultOrganizationId) ∧
    (findByEmail db p.email p.organizationId = none →
      login db p = .error .unauthorized) ∧
    (∀ u, findByEmail db p.email p.organizationId = some u →
      bcryptCompare p.password u.password = false →
      login db p = .error .unauthorized) ∧
    (∀ u, findByEmail db p.email p.organizationId = some u →
      bcryptCompare p.password u.password = true →
      UsersService.status db u = .ok "archived" →
      login db p = .error .unauthorized) := by
  refine ⟨?_, ?_, ?_, ?_⟩
  · intro u s org hu hc hst hs horg
    have hsb : (s == "archived") = false := by simpa using hs
    simp only [login, validateUser, hu, hc, if_true, hst, hsb, Bool.false_eq_true,
      if_false, horg]
    exact ⟨_, rfl, rfl, rfl⟩
  · intro h
    simp [login, validateUser, h]
  · intro u hu hc
    simp [login, validateUser, hu, hc]
  · intro u hu hc hst
    simp [login, validateUser, hu, hc, hst]

/-- C3 witness: correct credentials of an active user log in with the
expected token claims; a wrong password is Unauthorized. -/
theorem AuthService.login_spec_witness :
    (∃ payload, login wDb3 wP3 = .ok payload ∧
      (jwtVerify payload.authToken).username = wUser3.id ∧
      (jwtVerify payload.authToken).organizationId =
        jsOrStr wP3.organizationId wUser3.defaultOrganizationId) ∧
    login wDb3 wP3bad = .error .unauthorized :=
  ⟨(AuthService.login_spec wDb3 wP3).1 wUser3 "active" ⟨"o1", "Acme"⟩
      (by decide) (by decide) rfl (by decide) (by decide),
   (AuthService.login_spec wDb3 wP3bad).2.2.1 wUser3 (by decide) (by decide)⟩

/-- C6 counterexample: at a concrete successful login the token's `sub`
(subject) claim is the user's EMAIL, not the user's id — the claim that
the subject claim equals the logged-in user's id is false (the user id
travels in the nonstandard `username` claim). -/
theorem login_subject_claim_counterexample :
    login wDb3 wP3 = .ok cPayloadC6 ∧
    (jwtVerify cPayloadC6.authToken).sub = "a@b.c" ∧
    cPayloadC6.id = "u1" ∧ ("a@b.c" : String) ≠ "u1" :=
  ⟨rfl, rfl, rfl, by decide⟩

/-- C6 (amended): every successful login signs a token whose claims are
`username` = the user's id, `sub` = the user's email, and
`organizationId` = the effective organization id; the payload id also
equals the user's id. -/
theorem AuthService.login_token_claims (db : DB) (p : LoginParams)
    (payload : LoginPayload) (u : User)
    (hu : findByEmail db p.email p.organizationId = some u)
    (hl : login db p = .ok payload) :
    (jwtVerify payload.authToken).username = u.id ∧
    (jwtVerify payload.authToken).sub = u.email ∧
    (jwtVerify payload.authToken).organizationId =
      jsOrStr p.organizationId u.defaultOrganizationId ∧
    payload.id = u.id := by
  simp only [login, validateUser, hu] at hl
  cases hc : bcryptCompare p.password u.password
  · rw [hc] at hl; simp at hl
  · rw [hc] at hl
    simp only [if_true] at hl
    cases hst : UsersService.status db u with
    | error e => rw [hst] at hl; simp at hl
    | ok st =>
      rw [hst] at hl
      by_cases hs : (st == "archived") = true
      · simp only [hs, if_true] at hl; simp at hl
      · simp only [Bool.not_eq_true] at hs
        simp only [hs, Bool.false_eq_true, if_false] at hl
        cases horg : organizationsGet db
            (jsOrStr p.organizationId u.defaultOrganizationId) with
        | none => rw [horg] at hl; simp at hl
        | some org =>
          rw [horg] at hl
          simp only [Except.ok.injEq] at hl
          subst hl
          exact ⟨rfl, rfl, rfl, rfl⟩

/-- C6 witness for the amended claim, at the concrete login above. -/
theorem AuthService.login_token_claims_witness :
    (jwtVerify cPayloadC6.authToken).username = wUser3.id ∧
    (jwtVerify cPayloadC6.authToken).sub = wUser3.email ∧
    (jwtVerify cPayloadC6.authToken).organizationId =
      jsOrStr wP3.organizationId wUser3.defaultOrganizationId ∧
    cPayloadC6.id = wUser3.id :=
  AuthService.login_token_claims wDb3 wP3 cPayloadC6 wUser3 (by decide) rfl

/-- C8: with `DISABLE_SIGNUPS` equal to the string `true`, signup returns
an empty success result, the store is unchanged (no organization, user,
group or membership row is written) and no email is sent. -/
theorem AuthService.signup_disabled_no_writes (db : DB) (email : String)
    (fresh : SignupFresh) :
    signup (some "true") db email fresh = .ok (db, []) := rfl

/-- C10: for an email that resolves to no user, `forgotPassword`
dereferences the null lookup result: it neither returns normally nor
raises one of the designated error kinds (Unauthorized,
BadRequest/NotFound) but escapes as a generic null-dereference failure. -/
theorem AuthService.forgotPassword_unknown_email_crash (db : DB)
    (email tok : String) (h : findByEmail db email none = none) :
    forgotPassword db email tok = .error .nullDeref ∧
    forgotPassword db email tok ≠ .error .unauthorized ∧
    forgotPassword db email tok ≠ .error .badRequest ∧
    forgotPassword db email tok ≠ .error .notFound := by
  have h1 : forgotPassword db email tok = .error .nullDeref := by
    simp only [forgotPassword, h]
  refine ⟨h1, ?_, ?_, ?_⟩ <;> simp [h1]

/-- C10 witness: on an empty store every email is unknown and the call
crashes with the generic failure. -/
theorem AuthService.forgotPassword_unknown_email_crash_witness :
    forgotPassword wDb10 "ghost@x" "t1" = .error .nullDeref ∧
    forgotPassword wDb10 "ghost@x" "t1" ≠ .error .unauthorized ∧
    forgotPassword wDb10 "ghost@x" "t1" ≠ .error .badRequest ∧
    forgotPassword wDb10 "ghost@x" "t1" ≠ .error .notFound :=
  AuthService.forgotPassword_unknown_email_crash wDb10 "ghost@x" "t1" (by decide)

/-- C7: the authorization check denies by default — any entity kind
outside App/User/Thread/Comment/Folder decides false, any App action
outside create/read/update/delete decides false, and any Folder action
other than create decides false, whatever the store contains. -/
theorem UsersService.userCan_deny_by_default (db : DB) (u : User)
    (action entityName : String) (rid : Option String) :
    (entityName ∉ ["App", "User", "Thread", "Comment", "Folder"] →
      userCan db u action entityName rid = false) ∧
    (action ∉ ["create", "read", "update", "delete"] →
      userCan db u action "App" rid = false) ∧
    (action ≠ "create" → userCan db u action "Folder" rid = false) := by
  refine ⟨?_, ?_, ?_⟩
  · intro h
    simp only [List.mem_cons, List.not_mem_nil, or_false, not_or] at h
    obtain ⟨h1, h2, h3, h4, h5⟩ := h
    simp [userCan, h1, h2, h3, h4, h5]
  · intro h
    simp only [List.mem_cons, List.not_mem_nil, or_false, not_or] at h
    obtain ⟨h1, h2, h3, h4⟩ := h
    rw [show userCan db u action "App" rid =
      canUserPerformActionOnApp db u action rid from rfl]
    simp [canUserPerformActionOnApp, h1, h2, h3, h4]
  · intro h
    rw [show userCan db u action "Folder" rid =
      canUserPerformActionOnFolder db u action rid from rfl]
    simp [canUserPerformActionOnFolder, h]

/-- C7 witness: an unknown entity kind, an unknown App action, and a
non-create Folder action all decide false on a concrete store. -/
theorem UsersService.userCan_deny_by_default_witness :
    userCan wDbC1 wUserC1 "read" "Widget" none = false ∧
    userCan wDbC1 wUserC1 "clone" "App" none = false ∧
    userCan wDbC1 wUserC1 "delete" "Folder" none = false :=
  ⟨(UsersService.userCan_deny_by_default wDbC1 wUserC1 "read" "Widget" none).1
      (by decide),
   (UsersService.userCan_deny_by_default wDbC1 wUserC1 "clone" "App" none).2.1
      (by decide),
   (UsersService.userCan_deny_by_default wDbC1 wUserC1 "delete" "Folder" none).2.2
      (by decide)⟩

/-- Reduction of `update` when called with exactly the parameters
`resetPassword` and `forgotPassword` use to set the password and clear
the token (no group changes). -/
theorem update_pw_reduction (db : DB) (uid pw : String)
    (hpw : (pw == "") = false) :
    UsersService.update db uid ⟨some none, some pw, none, none, none, none⟩ =
      .ok ({ db with users := db.users.map (fun r =>
          if r.id == uid then
            { r with forgotPasswordToken := none, password := bcryptHash pw }
          else r) },
        ((db.users.map (fun r =>
          if r.id == uid then
            { r with forgotPasswordToken := none, password := bcryptHash pw }
          else r)).find? (fun r => r.id == uid)).map loadedUser) := by
  simp only [update, hpw, Bool.false_eq_true, if_false, Option.getD_some,
    Option.getD_none]

/-- C5 counterexample: with the empty password the call still succeeds
and clears the token, but the user's password is NOT updated (JavaScript
truthiness turns the hash into `undefined`, which `cleanObject` drops):
the stored password stays `oldhash`, which is not the hash of the
supplied password. -/
theorem resetPassword_emptyPassword_counterexample :
    resetPassword exDb5 "tok" "" = .ok exDb5after ∧
    (exDb5after.users.map (fun r => r.password)) = ["oldhash"] ∧
    ("oldhash" : String) ≠ bcryptHash "" ∧
    (exDb5after.users.map (fun r => r.forgotPasswordToken)) = [none] :=
  ⟨rfl, rfl, by decide, rfl⟩

/-- C5 (amended): `resetPassword` throws NotFound (changing nothing) when
no user carries the token; when a user carries it and the new password is
non-empty, it stores the bcrypt hash on that user and clears the token,
and — provided no second user carries the same token — a repeated call
with the same token throws NotFound (single-use). -/
theorem AuthService.resetPassword_spec (db : DB) (token pw : String)
    (hpw : pw ≠ "") :
    (findByPasswordResetToken db token = none →
      resetPassword db token pw = .error .notFound) ∧
    (∀ u, findByPasswordResetToken db token = some u →
      ∃ db2, resetPassword db token pw = .ok db2 ∧
        (∀ r ∈ db2.users, r.id = u.id →
          r.password = bcryptHash pw ∧ r.forgotPasswordToken = none) ∧
        (db.users.countP (fun r => r.forgotPasswordToken == some token) ≤ 1 →
          ∀ pw2, resetPassword db2 token pw2 = .error .notFound)) := by
  have hpwb : (pw == "") = false := by simpa using hpw
  refine ⟨?_, ?_⟩
  · intro h
    simp only [resetPassword, h]
  · intro u hu
    cases hfind : db.users.find? (fun r => r.forgotPasswordToken == some token) with
    | none =>
      rw [findByPasswordResetToken, hfind] at hu
      simp at hu
    | some x =>
      have hx : loadedUser x = u := by
        rw [findByPasswordResetToken, hfind] at hu
        simpa using hu
      have hqx : (x.forgotPasswordToken == some token) = true := by
        simpa using List.find?_some hfind
      have hmemx : x ∈ db.users := List.mem_of_find?_eq_some hfind
      have hxid : x.id = u.id := by rw [← hx]; rfl
      refine ⟨{ db with users := db.users.map (fun r =>
          if r.id == u.id then
            { r with forgotPasswordToken := none, password := bcryptHash pw }
          else r) }, ?_, ?_, ?_⟩
      · simp only [resetPassword, hu, update_pw_reduction db u.id pw hpwb]
      · intro r hr hrid
        simp only [List.mem_map] at hr
        obtain ⟨y, hy, hfy⟩ := hr
        by_cases hyid : (y.id == u.id) = true
        · rw [if_pos hyid] at hfy
          rw [← hfy]
          exact ⟨rfl, rfl⟩
        · rw [if_neg hyid] at hfy
          exact absurd (by rw [← hfy] at hrid; exact beq_iff_eq.mpr hrid) hyid
      · intro hcount pw2
        have hnone : (db.users.map (fun r =>
            if r.id == u.id then
              { r with forgotPasswordToken := none, password := bcryptHash pw }
            else r)).find? (fun r => r.forgotPasswordToken == some token) = none := by
          apply List.find?_eq_none.mpr
          intro r hr
          simp only [List.mem_map] at hr
          obtain ⟨y, hy, hfy⟩ := hr
          by_cases hyid : (y.id == u.id) = true
          · rw [if_pos hyid] at hfy
            rw [← hfy]
            simp
          · rw [if_neg hyid] at hfy
            rw [← hfy]
            intro hqy
            have hyne : y ≠ x := by
              intro he
              apply hyid
              rw [he, hxid]
              simp
            have h2 : 2 ≤ db.users.countP
                (fun r => r.forgotPasswordToken == some token) :=
              two_le_countP_of_distinct _ hy hmemx hyne hqy hqx
            omega
        simp only [resetPassword, findByPasswordResetToken, hnone, Option.map_none']

/-- C5 witness: resetting with a non-empty password on a store whose one
user carries the token updates that user's hash, clears the token, and
makes any second call with the same token fail with NotFound. -/
theorem AuthService.resetPassword_spec_witness :
    ∃ db2, resetPassword exDb5 "tok" "newpw" = .ok db2 ∧
      (∀ r ∈ db2.users, r.id = exUser5.id →
        r.password = bcryptHash "newpw" ∧ r.forgotPasswordToken = none) ∧
      (exDb5.users.countP (fun r => r.forgotPasswordToken == some "tok") ≤ 1 →
        ∀ pw2, resetPassword db2 "tok" pw2 = .error .notFound) :=
  (AuthService.resetPassword_spec exDb5 "tok" "newpw" (by decide)).2 exUser5
    (by decide)

/-- C9: on a valid new-signup invitation with an organization name
supplied, the call succeeds, clears the invitation token and activates
the membership — but the organization is NOT renamed to the supplied
name: the rename update targets the transient `user.organizationId`,
which is unset on an entity loaded from the repository, instead of
`user.defaultOrganizationId`. -/
theorem setupAccount_rename_not_applied :
    setupAccountFromInvitationToken exDb9 exP9 = .ok exDb9after ∧
    exP9.newSignup = true ∧ exP9.organization = some "MyCo" ∧
    exDb9after.organizations = [⟨"o1", "Untitled organization"⟩] ∧
    (exDb9after.users.map (fun r => r.invitationToken)) = [none] ∧
    (exDb9after.organizationUsers.map (fun r => r.status)) = ["active"] :=
  ⟨rfl, rfl, rfl, rfl, rfl, rfl⟩

end ToolJet
